import Mathlib

/-!
Shallow embedding of the tkey-fido device firmware (src/apps/fido and
src/device-fido) and verification of its specification claims.

Bytes and 32-bit words are modelled as `Nat` (with `% 2^32` where 32-bit
overflow matters, `% 256` where a byte store truncates).  Buffers are
`List Nat`.  The external cryptographic primitives (blake2s, P-256,
SHA-256) and the TRNG are parameters: they are collaborators with a
stated interface, not code of this repository.  Observable side effects
of the core operations (touch gate, DRBG draw, hashing, signing) are
recorded as explicit event lists so that frame conditions ("no signing
was performed") are statable.
-/

namespace TkeyFido

/-- Observable effect events of the U2F core operations. -/
inductive Ev
  | touchGate
  | rngDraw
  | shaHash
  | p256keypair
  | p256sign
deriving DecidableEq

/-- External cryptographic primitives, as consumed by the firmware.
`blake2s key input` is keyed Blake2s with 32-byte output (the MAC use:
key 32 bytes, input 64 bytes).  `blake2s_raw st` is unkeyed Blake2s of
the 64-byte DRBG state, abstracted at word level: 16 input words to
8 digest words.  `keypair priv` returns the C return code and the
64-byte public key; `sign priv hash` the return code and 64-byte
signature; `sha256` the 32-byte digest. -/
structure Prims where
  blake2s : List Nat → List Nat → List Nat
  blake2s_raw : List Nat → List Nat
  keypair : List Nat → Int × List Nat
  sign : List Nat → List Nat → Int × List Nat
  sha256 : List Nat → List Nat

/-- Modulus of a 32-bit word. -/
def W32 : Nat := 2 ^ 32

/-! ## DRBG (src/device-fido/rng.c) -/

/-- DRBG state context: `rng_ctx` of rng.c, a 32-bit counter and a
16-word state. -/
structure RngCtx where
  ctr : Nat
  state : List Nat
deriving DecidableEq

/-- RESEED_TIME of rng.c. -/
def RESEED_TIME : Nat := 1000

/-- Big-endian serialization of a 32-bit word: `output_w32` of rng.c. -/
def output_w32 (w : Nat) : List Nat :=
  [w / 2 ^ 24 % 256, w / 2 ^ 16 % 256, w / 2 ^ 8 % 256, w % 256]

/-- State advance after one compression: `update_rng_state` of rng.c.
`trng` is the TRNG word stream and `tidx` the index of the next unread
word (each `get_w32_entropy` call consumes one word). -/
def update_rng_state (trng : Nat → Nat) (c : RngCtx) (tidx : Nat)
    (digest : List Nat) : RngCtx × Nat :=
  let st1 := (List.range 8).map (fun i => digest.getD i 0) ++ c.state.drop 8
  let ctr1 := (c.ctr + 1) % W32
  let st2 := st1.set 15 ((st1.getD 15 0 + ctr1) % W32)
  if ctr1 = RESEED_TIME then
    (⟨0, st2.take 8 ++ (List.range 8).map (fun i => trng (tidx + i) % W32)⟩,
     tidx + 8)
  else
    (⟨ctr1, st2⟩, tidx)

/-- One iteration of the block loop in `rng_generate`: compress the
state, emit the first four digest words big-endian, advance the state. -/
def rng_block (b2s : List Nat → List Nat) (trng : Nat → Nat)
    (c : RngCtx) (tidx : Nat) : List Nat × RngCtx × Nat :=
  let digest := b2s c.state
  let out := output_w32 (digest.getD 0 0) ++ output_w32 (digest.getD 1 0) ++
             output_w32 (digest.getD 2 0) ++ output_w32 (digest.getD 3 0)
  let adv := update_rng_state trng c tidx digest
  (out, adv.1, adv.2)

/-- The block loop of `rng_generate`, iterated `k` times. -/
def rng_blocks (b2s : List Nat → List Nat) (trng : Nat → Nat) :
    Nat → RngCtx → Nat → List Nat × RngCtx × Nat
  | 0, c, tidx => ([], c, tidx)
  | k + 1, c, tidx =>
    let blk := rng_block b2s trng c tidx
    let rest := rng_blocks b2s trng k blk.2.1 blk.2.2
    (blk.1 ++ rest.1, rest.2.1, rest.2.2)

/-- The generate operation `rng_generate` of rng.c.  Returns the C
return code, the bytes written to the output buffer, and the new DRBG
and TRNG-stream state. -/
def rng_generate (b2s : List Nat → List Nat) (trng : Nat → Nat)
    (c : RngCtx) (tidx : Nat) (output_size : Nat) :
    Int × List Nat × RngCtx × Nat :=
  if output_size = 0 then (0, [], c, tidx)
  else if output_size % 16 ≠ 0 then (-1, [], c, tidx)
  else
    let r := rng_blocks b2s trng (output_size / 16) c tidx
    (0, r.1, r.2.1, r.2.2)

/-- Spec-side description of one DRBG block step, transcribed from the
specification's words: compute `digest = Blake2s(state)`; emit the
first four words of digest big-endian; then advance the state by
copying digest words 0..7 into state words 0..7, incrementing the
counter, adding the counter into state word 15, and — exactly when
the counter reaches RESEED_TIME — refreshing state words 8..15 from
the TRNG and resetting the counter to 0. -/
def drbg_step_spec (b2s : List Nat → List Nat) (trng : Nat → Nat)
    (c : RngCtx) (tidx : Nat) : List Nat × RngCtx × Nat :=
  let digest := b2s c.state
  let emit := output_w32 (digest.getD 0 0) ++ output_w32 (digest.getD 1 0) ++
              output_w32 (digest.getD 2 0) ++ output_w32 (digest.getD 3 0)
  let copied := (List.range 8).map (fun i => digest.getD i 0) ++ c.state.drop 8
  let ctr' := (c.ctr + 1) % W32
  let mixed := copied.set 15 ((copied.getD 15 0 + ctr') % W32)
  if ctr' = RESEED_TIME then
    (emit,
     ⟨0, mixed.take 8 ++ (List.range 8).map (fun i => trng (tidx + i) % W32)⟩,
     tidx + 8)
  else
    (emit, ⟨ctr', mixed⟩, tidx)

/-- Spec-side run of `k` successive block steps. -/
def drbg_run_spec (b2s : List Nat → List Nat) (trng : Nat → Nat) :
    Nat → RngCtx → Nat → List Nat × RngCtx × Nat
  | 0, c, tidx => ([], c, tidx)
  | k + 1, c, tidx =>
    let blk := drbg_step_spec b2s trng c tidx
    let rest := drbg_run_spec b2s trng k blk.2.1 blk.2.2
    (blk.1 ++ rest.1, rest.2.1, rest.2.2)

/-! ## Touch gate (wait_touched of src/apps/fido/u2f.c) -/

/-- Environment of the touch gate: the latch state of the touch-status
register at call entry, the timer-running bit as read at poll `k`, and
whether a fresh touch event reaches the latch just before poll `k`. -/
structure TouchEnv where
  initialLatch : Bool
  timerRunning : Nat → Bool
  arrive : Nat → Bool

/-- Poll loop body of `wait_touched`, from poll index `k` with current
latch value `latch`, bounded by `fuel` polls.  Each poll first absorbs
any newly arrived touch event into the latch, then checks the timer
(timeout exits with false) and then the latch (touch exits with
true), matching the order of the checks in the source loop.  `none`
means the loop did not exit within `fuel` polls. -/
def pollFrom (env : TouchEnv) : Bool → Nat → Nat → Option Bool
  | _, _, 0 => none
  | latch, k, fuel + 1 =>
    let latch' := latch || env.arrive k
    if env.timerRunning k = false then some false
    else if latch' = true then some true
    else pollFrom env latch' (k + 1) fuel

/-- The touch gate `wait_touched`.  The write `*touch = 0` before the
loop replaces the latched value `env.initialLatch` by `false`; polling
then starts at index 0. -/
def wait_touched (env : TouchEnv) (fuel : Nat) : Option Bool :=
  pollFrom env false 0 fuel

/-! ## U2F core (src/apps/fido/u2f.c) -/

/-- MAC helper `blake2s_mac` of u2f.c: keyed Blake2s over the
concatenation of two 32-byte parts. -/
def blake2s_mac (P : Prims) (secret part1 part2 : List Nat) : List Nat :=
  P.blake2s secret (part1.take 32 ++ part2.take 32)

/-- The 32-iteration comparison loop shared by `u2f_checkonly` and
`u2f_authenticate`: `keyhandle_valid` stays 1 iff all 32 byte pairs
agree. -/
def macCheck (mac macAgain : List Nat) : Bool :=
  (List.range 32).all (fun i => mac.getD i 0 == macAgain.getD i 0)

/-- Result of `u2f_register`: C return code, the bytes written to the
output buffer (in order from index 0), the DRBG and TRNG-stream state
after the call, and the observable events. -/
structure RegResult where
  ret : Int
  out : List Nat
  rng : RngCtx
  tidx : Nat
  evs : List Ev
deriving DecidableEq

/-- The register operation `u2f_register` of u2f.c.  `presence` is the
result of the `wait_touched` call that starts the operation; the DRBG
draw of the 32-byte nonce threads the DRBG state. -/
def u2f_register (P : Prims) (secret : List Nat) (presence : Bool)
    (trng : Nat → Nat) (rng : RngCtx) (tidx : Nat)
    (appli_param : List Nat) : RegResult :=
  match presence with
  | false => ⟨0, [0], rng, tidx, [Ev.touchGate]⟩
  | true =>
    let g := rng_generate P.blake2s_raw trng rng tidx 32
    let nonce := g.2.1
    let priv := blake2s_mac P secret appli_param nonce
    let kp := P.keypair priv
    if kp.1 ≠ 0 then
      ⟨kp.1, [], g.2.2.1, g.2.2.2, [Ev.touchGate, Ev.rngDraw, Ev.p256keypair]⟩
    else
      let mac := blake2s_mac P secret appli_param priv
      ⟨0, 1 :: (nonce.take 32 ++ mac.take 32 ++ kp.2.take 64),
       g.2.2.1, g.2.2.2, [Ev.touchGate, Ev.rngDraw, Ev.p256keypair]⟩

/-- The check-only operation `u2f_checkonly` of u2f.c: the single
payload byte written. -/
def u2f_checkonly (P : Prims) (secret : List Nat)
    (appli_param keyhandle : List Nat) : List Nat :=
  let nonce := keyhandle.take 32
  let mac := (keyhandle.drop 32).take 32
  let priv := blake2s_mac P secret appli_param nonce
  let macAgain := blake2s_mac P secret appli_param priv
  [if macCheck mac macAgain then 1 else 0]

/-- Result of `u2f_authenticate`: C return code, the bytes written to
the payload buffer (in order from index 0), and the observable
events. -/
structure AuthResult where
  ret : Int
  payload : List Nat
  evs : List Ev
deriving DecidableEq

/-- The authenticate operation `u2f_authenticate` of u2f.c.  `gate` is
the result the touch gate would report if consulted; whether it is
consulted at all is visible in the event list. -/
def u2f_authenticate (P : Prims) (secret : List Nat) (gate : Bool)
    (appli_param chall_param keyhandle : List Nat)
    (check_user : Nat) (counter : List Nat) : AuthResult :=
  let nonce := keyhandle.take 32
  let mac := (keyhandle.drop 32).take 32
  let priv := blake2s_mac P secret appli_param nonce
  let macAgain := blake2s_mac P secret appli_param priv
  if macCheck mac macAgain = false then
    ⟨0, [0], []⟩
  else if check_user ≠ 0 ∧ gate = false then
    ⟨0, [1, 0], [Ev.touchGate]⟩
  else
    let up : Nat := if check_user ≠ 0 then 1 else 0
    let gateEvs : List Ev := if check_user ≠ 0 then [Ev.touchGate] else []
    let sig_data := appli_param.take 32 ++ [up] ++ counter.take 4 ++
                    chall_param.take 32
    let hash := P.sha256 sig_data
    let s := P.sign priv hash
    if s.1 ≠ 0 then
      ⟨s.1, [], gateEvs ++ [Ev.shaHash, Ev.p256sign]⟩
    else
      ⟨0, [1, up] ++ s.2.take 64, gateEvs ++ [Ev.shaHash, Ev.p256sign]⟩

/-! ## Command dispatcher (main loop of src/apps/fido/main.c)

One iteration of the main loop for a frame addressed to the software
endpoint is modelled.  Buffers are modelled as the full byte contents;
a `memcpy` into a buffer prefix is `writeOver`. -/

/-- Writing `w` at offset 0 over an existing buffer `buf`. -/
def writeOver (buf w : List Nat) : List Nat := w ++ buf.drop w.length

/-- CMDLEN_MAXBYTES of the framing protocol. -/
def CMDLEN_MAXBYTES : Nat := 128

/-- Contents of the zeroed response buffer after writing `w` at
offset 0 — every response starts from `memset(rsp, 0, 128)`. -/
def rspBuf (w : List Nat) : List Nat :=
  writeOver (List.replicate CMDLEN_MAXBYTES 0) w

/-- STATUS_OK of the protocol. -/
def STATUS_OK : Nat := 0

/-- STATUS_BAD of the protocol. -/
def STATUS_BAD : Nat := 1

/-- Command opcodes of app_proto.h. -/
def APP_CMD_GET_NAMEVERSION : Nat := 0x01
def APP_RSP_GET_NAMEVERSION : Nat := 0x02
def APP_CMD_U2F_REGISTER : Nat := 0x03
def APP_RSP_U2F_REGISTER : Nat := 0x04
def APP_CMD_U2F_CHECKONLY : Nat := 0x05
def APP_RSP_U2F_CHECKONLY : Nat := 0x06
def APP_CMD_U2F_AUTHENTICATE_SET : Nat := 0x07
def APP_CMD_U2F_AUTHENTICATE_GO : Nat := 0x08
def APP_RSP_U2F_AUTHENTICATE : Nat := 0x09
def APP_RSP_UNKNOWN_CMD : Nat := 0xff

/-- Bytes of `app_name0 = "tk1 "`, `app_name1 = "fido"` and the
little-endian `app_version = 1`, as copied into the name-version
response. -/
def nameversion_bytes : List Nat :=
  [0x74, 0x6b, 0x31, 0x20, 0x66, 0x69, 0x64, 0x6f, 1, 0, 0, 0]

/-- Byte stored by the C conversion of an `int` return code to
`uint8_t`. -/
def retByte (r : Int) : Nat := (r % 256).toNat

/-- Dispatcher-visible mutable state across loop iterations: the
133-byte authenticate staging buffer `data` and the DRBG/TRNG state.
The staging buffer is an uninitialized stack array at boot. -/
structure DispState where
  data : List Nat
  rng : RngCtx
  tidx : Nat
deriving DecidableEq

/-- One framed response: the response opcode passed to `appreply` and
the contents of the 128-byte response buffer. -/
structure Reply where
  code : Nat
  body : List Nat
deriving DecidableEq

/-- One iteration of the dispatcher loop of main.c for a frame with
header length `hlen` and body `body` on the software endpoint.
`gate` is the result the touch gate reports if consulted; `outInit`
is the initial (uninitialized) contents of the 129-byte `output`
stack buffer of the register case.  Returns the emitted replies, the
new dispatcher state, and the events of the U2F core calls. -/
def dispatch (P : Prims) (secret : List Nat) (gate : Bool)
    (trng : Nat → Nat) (outInit : List Nat)
    (hlen : Nat) (body : List Nat) (st : DispState) :
    List Reply × DispState × List Ev :=
  let cmd := writeOver (List.replicate CMDLEN_MAXBYTES 0) (body.take hlen)
  if cmd.getD 0 0 = APP_CMD_GET_NAMEVERSION then
    let w := if hlen = 1 then nameversion_bytes else []
    ([⟨APP_RSP_GET_NAMEVERSION, rspBuf w⟩], st, [])
  else if cmd.getD 0 0 = APP_CMD_U2F_REGISTER then
    if hlen ≠ 128 then
      ([⟨APP_RSP_U2F_REGISTER, rspBuf [STATUS_BAD]⟩], st, [])
    else
      let r := u2f_register P secret gate trng st.rng st.tidx
                 ((cmd.drop 1).take 32)
      if r.ret ≠ 0 then
        ([⟨APP_RSP_U2F_REGISTER, rspBuf [STATUS_BAD, retByte r.ret]⟩],
         ⟨st.data, r.rng, r.tidx⟩, r.evs)
      else
        let output := writeOver outInit r.out
        let rspA := rspBuf ([STATUS_OK] ++ output.take 65)
        let rspB := writeOver rspA ([STATUS_OK] ++ (output.drop 65).take 64)
        ([⟨APP_RSP_U2F_REGISTER, rspA⟩, ⟨APP_RSP_U2F_REGISTER, rspB⟩],
         ⟨st.data, r.rng, r.tidx⟩, r.evs)
  else if cmd.getD 0 0 = APP_CMD_U2F_CHECKONLY then
    if hlen ≠ 128 then
      ([⟨APP_RSP_U2F_CHECKONLY, rspBuf [STATUS_BAD]⟩], st, [])
    else
      let p := u2f_checkonly P secret ((cmd.drop 1).take 32)
                 ((cmd.drop 33).take 64)
      ([⟨APP_RSP_U2F_CHECKONLY, rspBuf ([STATUS_OK] ++ p)⟩], st, [])
  else if cmd.getD 0 0 = APP_CMD_U2F_AUTHENTICATE_SET then
    if hlen ≠ 128 then
      ([⟨APP_RSP_U2F_AUTHENTICATE, rspBuf [STATUS_BAD]⟩], st, [])
    else
      let data' := writeOver st.data ((cmd.drop 1).take 64)
      ([⟨APP_RSP_U2F_AUTHENTICATE, rspBuf [STATUS_OK]⟩],
       ⟨data', st.rng, st.tidx⟩, [])
  else if cmd.getD 0 0 = APP_CMD_U2F_AUTHENTICATE_GO then
    if hlen ≠ 128 then
      ([⟨APP_RSP_U2F_AUTHENTICATE, rspBuf [STATUS_BAD]⟩], st, [])
    else
      let data' := st.data.take 64 ++ (cmd.drop 1).take 69 ++ st.data.drop 133
      let r := u2f_authenticate P secret gate
                 (data'.take 32) ((data'.drop 32).take 32)
                 ((data'.drop 64).take 64) (data'.getD 128 0)
                 ((data'.drop 129).take 4)
      if r.ret ≠ 0 then
        ([⟨APP_RSP_U2F_AUTHENTICATE, rspBuf [STATUS_BAD, retByte r.ret]⟩],
         ⟨data', st.rng, st.tidx⟩, r.evs)
      else
        ([⟨APP_RSP_U2F_AUTHENTICATE, rspBuf ([STATUS_OK] ++ r.payload)⟩],
         ⟨data', st.rng, st.tidx⟩, r.evs)
  else
    ([⟨APP_RSP_UNKNOWN_CMD, rspBuf []⟩], st, [])

/-! ## Concrete instantiations of the external collaborators, used to
exhibit concrete runs. -/

/-- Constant all-zero unkeyed Blake2s stand-in. -/
def b2s0 : List Nat → List Nat := fun _ => List.replicate 8 0

/-- Constant TRNG stream. -/
def trng0 : Nat → Nat := fun _ => 0

/-- A concrete DRBG state. -/
def ctx0 : RngCtx := ⟨0, List.replicate 16 0⟩

/-- Concrete primitives whose calls all succeed. -/
def P0 : Prims :=
  ⟨fun _ _ => List.replicate 32 0, b2s0,
   fun _ => (0, List.replicate 64 0),
   fun _ _ => (0, List.replicate 64 0),
   fun _ => List.replicate 32 0⟩

/-- Concrete primitives whose P-256 keypair derivation and signing
fail with code 5. -/
def Pfail : Prims :=
  ⟨fun _ _ => List.replicate 32 0, b2s0,
   fun _ => (5, []), fun _ _ => (5, []),
   fun _ => List.replicate 32 0⟩

/-- A concrete device secret. -/
def secret0 : List Nat := List.replicate 32 0

/-- A concrete initial dispatcher state. -/
def st0 : DispState := ⟨List.replicate 133 0, ctx0, 0⟩

/-- Concrete initial contents of the register output stack buffer. -/
def out0 : List Nat := List.replicate 129 0

/-! ## Helper lemmas -/

theorem rng_block_eq_spec (b2s : List Nat → List Nat) (trng : Nat → Nat)
    (c : RngCtx) (tidx : Nat) :
    rng_block b2s trng c tidx = drbg_step_spec b2s trng c tidx := by
  simp only [rng_block, drbg_step_spec, update_rng_state]
  split <;> rfl

theorem rng_blocks_eq_spec (b2s : List Nat → List Nat) (trng : Nat → Nat)
    (k : Nat) (c : RngCtx) (tidx : Nat) :
    rng_blocks b2s trng k c tidx = drbg_run_spec b2s trng k c tidx := by
  induction k generalizing c tidx with
  | zero => rfl
  | succ n ih =>
    simp only [rng_blocks, drbg_run_spec, rng_block_eq_spec, ih]

/-- C8: the generate operation succeeds exactly on multiples of 16:
it returns 0 with no output and unchanged state for n = 0, and a
non-zero code with no output and unchanged state when 16 does not
divide n. -/
theorem c8_rng_generate_error_contract (b2s : List Nat → List Nat)
    (trng : Nat → Nat) (c : RngCtx) (tidx : Nat) (n : Nat) :
    ((rng_generate b2s trng c tidx n).1 = 0 ↔ n % 16 = 0)
    ∧ (n = 0 → rng_generate b2s trng c tidx n = (0, [], c, tidx))
    ∧ (n % 16 ≠ 0 → rng_generate b2s trng c tidx n = (-1, [], c, tidx)) := by
  unfold rng_generate
  by_cases h0 : n = 0
  · subst h0; simp
  · by_cases h16 : n % 16 = 0 <;> simp [h0, h16]

theorem c8_witness :
    (8 % 16 ≠ 0)
    ∧ rng_generate b2s0 trng0 ctx0 0 8 = (-1, [], ctx0, 0) :=
  ⟨by decide, (c8_rng_generate_error_contract b2s0 trng0 ctx0 0 8).2.2
      (by decide)⟩

/-- C7: for a positive multiple of 16, generate succeeds and the
output and state evolution are exactly the iterated spec-described
block step: emit the first four digest words big-endian, roll digest
words 0..7 into state words 0..7, increment the counter, add it into
state word 15, and reseed words 8..15 from the TRNG exactly when the
counter reaches RESEED_TIME, resetting it to 0. -/
theorem c7_rng_generate_block_step (b2s : List Nat → List Nat)
    (trng : Nat → Nat) (c : RngCtx) (tidx : Nat) (n : Nat)
    (hpos : 0 < n) (hmul : n % 16 = 0) :
    rng_generate b2s trng c tidx n =
      (0, drbg_run_spec b2s trng (n / 16) c tidx) := by
  unfold rng_generate
  simp [Nat.pos_iff_ne_zero.mp hpos, hmul, rng_blocks_eq_spec]

theorem c7_witness :
    (0 < 32 ∧ 32 % 16 = 0)
    ∧ rng_generate b2s0 trng0 ctx0 0 32 =
        (0, drbg_run_spec b2s0 trng0 (32 / 16) ctx0 0) :=
  ⟨by decide, c7_rng_generate_block_step b2s0 trng0 ctx0 0 32
      (by decide) (by decide)⟩

theorem rng_block_out_length (b2s : List Nat → List Nat) (trng : Nat → Nat)
    (c : RngCtx) (tidx : Nat) : (rng_block b2s trng c tidx).1.length = 16 := by
  simp [rng_block, output_w32]

theorem rng_blocks_out_length (b2s : List Nat → List Nat) (trng : Nat → Nat)
    (k : Nat) (c : RngCtx) (tidx : Nat) :
    (rng_blocks b2s trng k c tidx).1.length = 16 * k := by
  induction k generalizing c tidx with
  | zero => rfl
  | succ n ih =>
    simp [rng_blocks, rng_block_out_length, ih, Nat.mul_succ, Nat.add_comm]

theorem rng_generate_32_out_length (b2s : List Nat → List Nat)
    (trng : Nat → Nat) (c : RngCtx) (tidx : Nat) :
    (rng_generate b2s trng c tidx 32).2.1.length = 32 := by
  simp [rng_generate, rng_blocks_out_length]

theorem macCheck_self (l : List Nat) : macCheck l l = true := by
  simp [macCheck]

theorem macCheck_eq_false (a b : List Nat)
    (h : ∃ i, i < 32 ∧ a.getD i 0 ≠ b.getD i 0) : macCheck a b = false := by
  rcases h with ⟨i, hi, hne⟩
  apply Bool.eq_false_iff.mpr
  intro hall
  rw [macCheck, List.all_eq_true] at hall
  exact hne (by simpa using hall i (List.mem_range.mpr hi))

/-- C1: a key handle emitted by a successful, touch-confirmed Register
under a 32-byte app_param is accepted by CheckOnly under the same
app_param: the payload byte is 1. -/
theorem c1_register_checkonly_roundtrip (P : Prims) (secret : List Nat)
    (trng : Nat → Nat) (rng : RngCtx) (tidx : Nat) (app : List Nat)
    (hB : ∀ k m, (P.blake2s k m).length = 32)
    (happ : app.length = 32)
    (hret : (u2f_register P secret true trng rng tidx app).ret = 0) :
    u2f_checkonly P secret app
      (((u2f_register P secret true trng rng tidx app).out.drop 1).take 64)
      = [1] := by
  have hn : (rng_generate P.blake2s_raw trng rng tidx 32).2.1.length = 32 :=
    rng_generate_32_out_length _ _ _ _
  by_cases hkp :
      (P.keypair (blake2s_mac P secret app
        (rng_generate P.blake2s_raw trng rng tidx 32).2.1)).1 = 0
  · have hm : (blake2s_mac P secret app
        (blake2s_mac P secret app
          (rng_generate P.blake2s_raw trng rng tidx 32).2.1)).length = 32 :=
      hB _ _
    have hout : ((u2f_register P secret true trng rng tidx app).out.drop 1).take
        64 = (rng_generate P.blake2s_raw trng rng tidx 32).2.1 ++
          blake2s_mac P secret app (blake2s_mac P secret app
            (rng_generate P.blake2s_raw trng rng tidx 32).2.1) := by
      simp only [u2f_register]
      rw [if_neg (not_not_intro hkp), List.drop_one, List.tail_cons,
          List.take_of_length_le (le_of_eq hn),
          List.take_of_length_le (le_of_eq hm),
          List.take_left' (by rw [List.length_append, hn, hm])]
    rw [hout, u2f_checkonly, List.take_left' hn, List.drop_left' hn,
        List.take_of_length_le (le_of_eq hm)]
    rw [if_pos (macCheck_self _)]
  · exfalso
    apply hkp
    simp only [u2f_register] at hret
    rw [if_pos hkp] at hret
    exact hret

/-- A concrete 32-byte application parameter. -/
def app0 : List Nat := List.replicate 32 0

/-- A concrete 32-byte challenge parameter. -/
def chall0 : List Nat := List.replicate 32 0

theorem c1_witness :
    ((u2f_register P0 secret0 true trng0 ctx0 0 app0).ret = 0
      ∧ app0.length = 32)
    ∧ u2f_checkonly P0 secret0 app0
        (((u2f_register P0 secret0 true trng0 ctx0 0 app0).out.drop 1).take 64)
        = [1] :=
  ⟨⟨by decide, by decide⟩,
   c1_register_checkonly_roundtrip P0 secret0 trng0 ctx0 0 app0
     (fun _ _ => rfl) (by decide) (by decide)⟩

/-- C3: a successful Authenticate with a valid key handle and
established presence emits the P-256 ECDSA signature over the SHA-256
of the 69-byte message app_param(32) ‖ presence(1) ‖ counter(4) ‖
chall_param(32) under the recovered private key
priv′ = MAC_S(app_param ‖ KH[0..32]), with payload
valid=1 ‖ presence ‖ sig. -/
theorem c3_authenticate_signature (P : Prims) (secret : List Nat)
    (gate : Bool) (app chall kh ctr : List Nat) (cu : Nat)
    (happ : app.length = 32) (hch : chall.length = 32)
    (hctr : ctr.length = 4)
    (hvalid : macCheck ((kh.drop 32).take 32)
      (blake2s_mac P secret app
        (blake2s_mac P secret app (kh.take 32))) = true)
    (hgate : cu ≠ 0 → gate = true)
    (hsig0 : (P.sign (blake2s_mac P secret app (kh.take 32))
      (P.sha256 (app ++ [if cu ≠ 0 then 1 else 0] ++ ctr ++ chall))).1 = 0)
    (hsiglen : (P.sign (blake2s_mac P secret app (kh.take 32))
      (P.sha256 (app ++ [if cu ≠ 0 then 1 else 0] ++ ctr ++
        chall))).2.length = 64) :
    (app ++ [if cu ≠ 0 then 1 else 0] ++ ctr ++ chall).length = 69
    ∧ u2f_authenticate P secret gate app chall kh cu ctr =
      ⟨0, [1, if cu ≠ 0 then 1 else 0] ++
          (P.sign (blake2s_mac P secret app (kh.take 32))
            (P.sha256 (app ++ [if cu ≠ 0 then 1 else 0] ++ ctr ++ chall))).2,
        (if cu ≠ 0 then [Ev.touchGate] else []) ++
          [Ev.shaHash, Ev.p256sign]⟩ := by
  constructor
  · simp [happ, hch, hctr]
  · rw [u2f_authenticate]
    rw [if_neg (by rw [hvalid]; exact Bool.true_eq_false ▸ (by simp))]
    by_cases hcu : cu = 0
    · subst hcu
      rw [if_neg (by rintro ⟨h, _⟩; exact h rfl)]
      simp only
      rw [if_neg (not_not_intro rfl)] at hsig0 hsiglen ⊢
      rw [List.take_of_length_le (le_of_eq happ),
          List.take_of_length_le (le_of_eq hch),
          List.take_of_length_le (le_of_eq hctr)]
      rw [if_neg (not_not_intro hsig0),
          List.take_of_length_le (le_of_eq hsiglen)]
    · rw [if_neg (by rintro ⟨_, hg⟩; rw [hgate hcu] at hg; cases hg)]
      simp only
      rw [if_pos hcu] at hsig0 hsiglen ⊢
      rw [List.take_of_length_le (le_of_eq happ),
          List.take_of_length_le (le_of_eq hch),
          List.take_of_length_le (le_of_eq hctr)]
      rw [if_neg (not_not_intro hsig0),
          List.take_of_length_le (le_of_eq hsiglen)]

/-- A concrete valid key handle for the all-zero primitives: nonce
zero, MAC half equal to the recomputed MAC. -/
def kh0 : List Nat := List.replicate 64 0

theorem c3_witness :
    (macCheck ((kh0.drop 32).take 32)
      (blake2s_mac P0 secret0 app0
        (blake2s_mac P0 secret0 app0 (kh0.take 32))) = true)
    ∧ u2f_authenticate P0 secret0 false app0 chall0 kh0 0 [0, 0, 0, 1] =
      ⟨0, [1, if (0 : Nat) ≠ 0 then 1 else 0] ++
          (P0.sign (blake2s_mac P0 secret0 app0 (kh0.take 32))
            (P0.sha256 (app0 ++ [if (0 : Nat) ≠ 0 then 1 else 0] ++
              [0, 0, 0, 1] ++ chall0))).2,
        (if (0 : Nat) ≠ 0 then [Ev.touchGate] else []) ++
          [Ev.shaHash, Ev.p256sign]⟩ :=
  ⟨by decide,
   (c3_authenticate_signature P0 secret0 false app0 chall0 kh0 [0, 0, 0, 1] 0
     (by decide) (by decide) (by decide) (by decide)
     (fun h => absurd rfl h) (by decide) (by decide)).2⟩

/-- C4: when the key handle fails the MAC check in at least one byte,
Authenticate returns success with the single payload byte valid=0,
consults no touch gate, and performs no hashing and no signing,
regardless of the check_user flag. -/
theorem c4_authenticate_short_circuit (P : Prims) (secret : List Nat)
    (gate : Bool) (app chall kh ctr : List Nat) (cu : Nat)
    (hbad : ∃ i, i < 32 ∧ ((kh.drop 32).take 32).getD i 0 ≠
      (blake2s_mac P secret app
        (blake2s_mac P secret app (kh.take 32))).getD i 0) :
    u2f_authenticate P secret gate app chall kh cu ctr = ⟨0, [0], []⟩ := by
  rw [u2f_authenticate, if_pos (macCheck_eq_false _ _ hbad)]

/-- A concrete key handle whose MAC half disagrees with the recomputed
MAC under the all-zero primitives. -/
def khBad : List Nat := List.replicate 32 0 ++ List.replicate 32 7

theorem c4_witness :
    (((khBad.drop 32).take 32).getD 0 0 ≠
      (blake2s_mac P0 secret0 app0
        (blake2s_mac P0 secret0 app0 (khBad.take 32))).getD 0 0)
    ∧ u2f_authenticate P0 secret0 true app0 chall0 khBad 1 [0, 0, 0, 1] =
      ⟨0, [0], []⟩ :=
  ⟨by decide,
   c4_authenticate_short_circuit P0 secret0 true app0 chall0 khBad
     [0, 0, 0, 1] 1 ⟨0, by decide, by decide⟩⟩

/-- C10: whenever u2f_register or u2f_authenticate returns a non-zero
code, no byte of the caller-supplied output or payload buffer has been
written. -/
theorem c10_error_atomicity (P : Prims) (secret : List Nat)
    (pres gate : Bool) (trng : Nat → Nat) (rng : RngCtx) (tidx : Nat)
    (app chall kh ctr : List Nat) (cu : Nat) :
    ((u2f_register P secret pres trng rng tidx app).ret ≠ 0 →
      (u2f_register P secret pres trng rng tidx app).out = [])
    ∧ ((u2f_authenticate P secret gate app chall kh cu ctr).ret ≠ 0 →
      (u2f_authenticate P secret gate app chall kh cu ctr).payload = []) := by
  constructor
  · intro h
    match pres with
    | false => exact absurd rfl h
    | true =>
      by_cases hkp : (P.keypair (blake2s_mac P secret app
          (rng_generate P.blake2s_raw trng rng tidx 32).2.1)).1 = 0
      · exact absurd
          (by simp only [u2f_register]; rw [if_neg (not_not_intro hkp)]) h
      · simp only [u2f_register]
        rw [if_pos hkp]
  · rw [u2f_authenticate]
    split
    · intro h; exact absurd rfl h
    · split
      · intro h; exact absurd rfl h
      · simp only
        split <;> split <;> intro h
        all_goals first | rfl | exact absurd rfl h

theorem c10_witness :
    ((u2f_register Pfail secret0 true trng0 ctx0 0 app0).ret ≠ 0)
    ∧ (u2f_register Pfail secret0 true trng0 ctx0 0 app0).out = [] :=
  ⟨by decide,
   (c10_error_atomicity Pfail secret0 true true trng0 ctx0 0 app0 chall0
     kh0 [0, 0, 0, 1] 0).1 (by decide)⟩

theorem pollFrom_initialLatch_irrel (a b : Bool) (t r : Nat → Bool)
    (latch : Bool) (k fuel : Nat) :
    pollFrom ⟨a, t, r⟩ latch k fuel = pollFrom ⟨b, t, r⟩ latch k fuel := by
  induction fuel generalizing latch k with
  | zero => rfl
  | succ n ih => simp only [pollFrom, ih]

theorem pollFrom_exit (env : TouchEnv) (latch : Bool) (k fuel : Nat)
    (b : Bool) (h : pollFrom env latch k fuel = some b) :
    ∃ m, k ≤ m
      ∧ (b = false → env.timerRunning m = false)
      ∧ (b = true → env.timerRunning m = true ∧
          (latch = true ∨ ∃ j, k ≤ j ∧ j ≤ m ∧ env.arrive j = true)) := by
  induction fuel generalizing latch k with
  | zero => cases h
  | succ n ih =>
    rw [pollFrom] at h
    by_cases ht : env.timerRunning k = false
    · rw [if_pos ht] at h
      refine ⟨k, le_refl k, fun _ => ht, fun hb => ?_⟩
      cases h
      cases hb
    · rw [if_neg ht] at h
      by_cases hl : (latch || env.arrive k) = true
      · rw [if_pos hl] at h
        refine ⟨k, le_refl k, fun hb => ?_, fun _ => ?_⟩
        · cases h; cases hb
        · refine ⟨Bool.not_eq_false _ ▸ ht, ?_⟩
          rcases Bool.or_eq_true_iff.mp hl with h1 | h2
          · exact Or.inl h1
          · exact Or.inr ⟨k, le_refl k, le_refl k, h2⟩
      · rw [if_neg hl] at h
        rcases ih _ _ h with ⟨m, hkm, hb0, hb1⟩
        refine ⟨m, le_trans (Nat.le_succ k) hkm, hb0, fun hb => ?_⟩
        rcases hb1 hb with ⟨htm, hlat | ⟨j, hj1, hj2, hj3⟩⟩
        · exact absurd hlat hl
        · exact ⟨htm, Or.inr ⟨j, le_trans (Nat.le_succ k) hj1, hj2, hj3⟩⟩

/-- C9: the touch gate clears any pre-latched touch before polling:
its result never depends on the latch state at entry, the presence
bit is 1 only if a touch event arrives after arming, and the exit is
decided by exactly one of touch (timer still running) or timer
expiry (timer stopped). -/
theorem c9_touch_preclear (env : TouchEnv) (fuel : Nat) (b b' : Bool)
    (h : wait_touched env fuel = some b) :
    (wait_touched ⟨b', env.timerRunning, env.arrive⟩ fuel =
      wait_touched env fuel)
    ∧ (b = true → ∃ j, env.arrive j = true)
    ∧ (∃ m, (b = false → env.timerRunning m = false)
        ∧ (b = true → env.timerRunning m = true ∧
            ∃ j, j ≤ m ∧ env.arrive j = true)) := by
  refine ⟨?_, fun hb => ?_, ?_⟩
  · exact pollFrom_initialLatch_irrel b' env.initialLatch env.timerRunning
      env.arrive false 0 fuel
  · rcases pollFrom_exit env false 0 fuel b h with ⟨m, _, _, hb1⟩
    rcases hb1 hb with ⟨_, hlat | ⟨j, _, _, hj⟩⟩
    · cases hlat
    · exact ⟨j, hj⟩
  · rcases pollFrom_exit env false 0 fuel b h with ⟨m, _, hb0, hb1⟩
    refine ⟨m, hb0, fun hb => ?_⟩
    rcases hb1 hb with ⟨htm, hlat | ⟨j, _, hj2, hj3⟩⟩
    · cases hlat
    · exact ⟨htm, j, hj2, hj3⟩

/-- A concrete touch environment: a stale latched touch at entry, the
timer expiring at the fifth poll, and no touch arriving. -/
def env0 : TouchEnv := ⟨true, fun k => decide (k < 5), fun _ => false⟩

theorem c9_witness :
    wait_touched env0 10 = some false
    ∧ ((wait_touched ⟨true, env0.timerRunning, env0.arrive⟩ 10 =
        wait_touched env0 10)
      ∧ (false = true → ∃ j, env0.arrive j = true)
      ∧ (∃ m, (false = false → env0.timerRunning m = false)
          ∧ (false = true → env0.timerRunning m = true ∧
              ∃ j, j ≤ m ∧ env0.arrive j = true))) :=
  ⟨by decide, c9_touch_preclear env0 10 false true (by decide)⟩

theorem cmd0_eq (hlen : Nat) (body : List Nat) (h1 : 1 ≤ hlen)
    (hblen : body.length = hlen) :
    (writeOver (List.replicate CMDLEN_MAXBYTES 0) (body.take hlen)).getD 0 0
      = body.getD 0 0 := by
  rcases body with _ | ⟨a, l⟩
  · rw [List.length_nil] at hblen
    omega
  · rcases hlen with _ | m
    · omega
    · rw [writeOver, List.take_succ_cons, List.cons_append,
        List.getD_cons_zero, List.getD_cons_zero]

/-- C2: the claimed state-machine guard does not exist in the code.
In a fresh session (zeroed staging buffer), an AUTH_GO command of
length 128 is not rejected: the dispatcher runs u2f_authenticate on
the staging buffer and replies with a STATUS_OK authenticate
response, having performed hashing and signing.  The code's own
comment calls a GO without a preceding SET an error, but no check is
implemented. -/
theorem c2_authgo_in_idle_not_rejected :
    ((dispatch P0 secret0 false trng0 out0 128
        (APP_CMD_U2F_AUTHENTICATE_GO :: List.replicate 127 0) st0).1.getD 0
          ⟨0, []⟩).body.getD 0 9 = STATUS_OK
    ∧ (dispatch P0 secret0 false trng0 out0 128
        (APP_CMD_U2F_AUTHENTICATE_GO :: List.replicate 127 0) st0).1 ≠
          [⟨APP_RSP_U2F_AUTHENTICATE, rspBuf [STATUS_BAD]⟩]
    ∧ (dispatch P0 secret0 false trng0 out0 128
        (APP_CMD_U2F_AUTHENTICATE_GO :: List.replicate 127 0) st0).2.2 =
          [Ev.shaHash, Ev.p256sign] := by
  refine ⟨by decide, by decide, by decide⟩

/-- C5 counterexample: on a Register whose touch gate times out, the
device emits two response frames, not the single frame the claim
states. -/
theorem c5_counterexample :
    (dispatch P0 secret0 false trng0 out0 128
        (APP_CMD_U2F_REGISTER :: List.replicate 127 0) st0).1.length = 2
    ∧ (dispatch P0 secret0 false trng0 out0 128
        (APP_CMD_U2F_REGISTER :: List.replicate 127 0) st0).1.length ≠ 1 := by
  refine ⟨by decide, by decide⟩

/-- C5 as amended: on Register timeout the dispatcher emits two 0x04
frames; the first carries status byte STATUS_OK followed by the
presence byte 0 (the only meaningful bytes — the rest of both frames
is copied from the uninitialized output buffer); no nonce is drawn
(the DRBG state is untouched and the only event is the touch gate)
and no key material is derived. -/
theorem c5_register_timeout_two_frames (P : Prims) (secret : List Nat)
    (trng : Nat → Nat) (outInit body : List Nat) (st : DispState)
    (hb0 : body.getD 0 0 = APP_CMD_U2F_REGISTER)
    (hblen : body.length = 128) :
    dispatch P secret false trng outInit 128 body st =
      ([⟨APP_RSP_U2F_REGISTER,
          rspBuf ([STATUS_OK] ++ (writeOver outInit [0]).take 65)⟩,
        ⟨APP_RSP_U2F_REGISTER,
          writeOver (rspBuf ([STATUS_OK] ++ (writeOver outInit [0]).take 65))
            ([STATUS_OK] ++ ((writeOver outInit [0]).drop 65).take 64)⟩],
       st, [Ev.touchGate])
    ∧ (rspBuf ([STATUS_OK] ++ (writeOver outInit [0]).take 65)).getD 0 2
        = STATUS_OK
    ∧ (rspBuf ([STATUS_OK] ++ (writeOver outInit [0]).take 65)).getD 1 2
        = 0 := by
  have hc : (writeOver (List.replicate CMDLEN_MAXBYTES 0)
      (body.take 128)).getD 0 0 = APP_CMD_U2F_REGISTER := by
    rw [cmd0_eq 128 body (by omega) hblen, hb0]
  refine ⟨?_, ?_, ?_⟩
  · rw [dispatch]
    rw [if_neg (by rw [hc]; decide), if_pos hc,
        if_neg (not_not_intro rfl)]
    simp only [u2f_register]
    rw [if_neg (not_not_intro rfl)]
  · rfl
  · simp [writeOver, rspBuf, List.take_succ_cons, List.getD_cons_succ,
      List.getD_cons_zero]

set_option maxRecDepth 8192 in
theorem c5_witness :
    ((APP_CMD_U2F_REGISTER :: List.replicate 127 0).getD 0 0 =
        APP_CMD_U2F_REGISTER
      ∧ (APP_CMD_U2F_REGISTER :: List.replicate 127 0).length = 128)
    ∧ dispatch P0 secret0 false trng0 out0 128
        (APP_CMD_U2F_REGISTER :: List.replicate 127 0) st0 =
      ([⟨APP_RSP_U2F_REGISTER,
          rspBuf ([STATUS_OK] ++ (writeOver out0 [0]).take 65)⟩,
        ⟨APP_RSP_U2F_REGISTER,
          writeOver (rspBuf ([STATUS_OK] ++ (writeOver out0 [0]).take 65))
            ([STATUS_OK] ++ ((writeOver out0 [0]).drop 65).take 64)⟩],
       st0, [Ev.touchGate]) :=
  ⟨⟨by decide, by decide⟩,
   (c5_register_timeout_two_frames P0 secret0 trng0 out0
     (APP_CMD_U2F_REGISTER :: List.replicate 127 0) st0
     (by decide) (by decide)).1⟩

/-- C6 counterexample: a NAMEVERSION command with body length 4
(a legal frame length different from the expected 1) is answered with
an all-zero payload under the name-version response opcode — its
first byte is STATUS_OK, not the STATUS_BAD the claim states. -/
theorem c6_counterexample :
    (dispatch P0 secret0 false trng0 out0 4
        [APP_CMD_GET_NAMEVERSION, 0, 0, 0] st0).1 =
      [⟨APP_RSP_GET_NAMEVERSION, rspBuf []⟩]
    ∧ ((dispatch P0 secret0 false trng0 out0 4
        [APP_CMD_GET_NAMEVERSION, 0, 0, 0] st0).1.getD 0
          ⟨0, []⟩).body.getD 0 9 ≠ STATUS_BAD := by
  refine ⟨by decide, by decide⟩

/-- C6 as amended: for REGISTER, CHECKONLY, AUTH_SET and AUTH_GO a
frame whose body length is not 128 is answered with a one-byte
STATUS_BAD payload, with no handler work (no events, state
unchanged); a NAMEVERSION frame whose body length is not 1 — any
such length, 128 included — is instead answered under the
name-version response opcode with an all-zero payload, not with
STATUS_BAD. -/
theorem c6_bad_length_handling (P : Prims) (secret : List Nat)
    (gate : Bool) (trng : Nat → Nat) (outInit body : List Nat)
    (hlen : Nat) (st : DispState)
    (h1 : 1 ≤ hlen) (hblen : body.length = hlen) :
    (body.getD 0 0 = APP_CMD_U2F_REGISTER → hlen ≠ 128 →
      dispatch P secret gate trng outInit hlen body st =
        ([⟨APP_RSP_U2F_REGISTER, rspBuf [STATUS_BAD]⟩], st, []))
    ∧ (body.getD 0 0 = APP_CMD_U2F_CHECKONLY → hlen ≠ 128 →
      dispatch P secret gate trng outInit hlen body st =
        ([⟨APP_RSP_U2F_CHECKONLY, rspBuf [STATUS_BAD]⟩], st, []))
    ∧ (body.getD 0 0 = APP_CMD_U2F_AUTHENTICATE_SET → hlen ≠ 128 →
      dispatch P secret gate trng outInit hlen body st =
        ([⟨APP_RSP_U2F_AUTHENTICATE, rspBuf [STATUS_BAD]⟩], st, []))
    ∧ (body.getD 0 0 = APP_CMD_U2F_AUTHENTICATE_GO → hlen ≠ 128 →
      dispatch P secret gate trng outInit hlen body st =
        ([⟨APP_RSP_U2F_AUTHENTICATE, rspBuf [STATUS_BAD]⟩], st, []))
    ∧ (body.getD 0 0 = APP_CMD_GET_NAMEVERSION → hlen ≠ 1 →
      dispatch P secret gate trng outInit hlen body st =
        ([⟨APP_RSP_GET_NAMEVERSION, rspBuf []⟩], st, [])) := by
  have hc := cmd0_eq hlen body h1 hblen
  refine ⟨fun hb h128 => ?_, fun hb h128 => ?_, fun hb h128 => ?_,
    fun hb h128 => ?_, fun hb hne1 => ?_⟩
  · rw [dispatch, if_neg (by rw [hc, hb]; decide),
      if_pos (by rw [hc, hb]), if_pos h128]
  · rw [dispatch, if_neg (by rw [hc, hb]; decide),
      if_neg (by rw [hc, hb]; decide), if_pos (by rw [hc, hb]),
      if_pos h128]
  · rw [dispatch, if_neg (by rw [hc, hb]; decide),
      if_neg (by rw [hc, hb]; decide), if_neg (by rw [hc, hb]; decide),
      if_pos (by rw [hc, hb]), if_pos h128]
  · rw [dispatch, if_neg (by rw [hc, hb]; decide),
      if_neg (by rw [hc, hb]; decide), if_neg (by rw [hc, hb]; decide),
      if_neg (by rw [hc, hb]; decide), if_pos (by rw [hc, hb]),
      if_pos h128]
  · rw [dispatch, if_pos (by rw [hc, hb]), if_neg hne1]

set_option maxRecDepth 8192 in
theorem c6_witness :
    (1 ≤ 4 ∧ (4 : Nat) ≠ 128
      ∧ ([APP_CMD_U2F_REGISTER, 0, 0, 0] : List Nat).length = 4
      ∧ ([APP_CMD_U2F_REGISTER, 0, 0, 0] : List Nat).getD 0 0 =
          APP_CMD_U2F_REGISTER)
    ∧ dispatch P0 secret0 false trng0 out0 4
        [APP_CMD_U2F_REGISTER, 0, 0, 0] st0 =
      ([⟨APP_RSP_U2F_REGISTER, rspBuf [STATUS_BAD]⟩], st0, [])
    ∧ ((APP_CMD_GET_NAMEVERSION :: List.replicate 127 0).length = 128
      ∧ (128 : Nat) ≠ 1)
    ∧ dispatch P0 secret0 false trng0 out0 128
        (APP_CMD_GET_NAMEVERSION :: List.replicate 127 0) st0 =
      ([⟨APP_RSP_GET_NAMEVERSION, rspBuf []⟩], st0, []) :=
  ⟨⟨by decide, by decide, by decide, by decide⟩,
   (c6_bad_length_handling P0 secret0 false trng0 out0
     [APP_CMD_U2F_REGISTER, 0, 0, 0] 4 st0
     (by decide) (by decide)).1 (by decide) (by decide),
   ⟨by decide, by decide⟩,
   (c6_bad_length_handling P0 secret0 false trng0 out0
     (APP_CMD_GET_NAMEVERSION :: List.replicate 127 0) 128 st0
     (by decide) (by decide)).2.2.2.2 (by decide) (by decide)⟩

end TkeyFido
